import Mathlib

/-!
Verification of the song-visualizer core logic.

Shallow embedding of the core of `src/app.py` (and the data flow it relies
on): the feature categorizer `dance_energy_category`, the mood classifier
`map_mood`, the repository query `db_create_dataframe`, the genre-popularity
bar-chart derivation `create_figure_genre_popularity`, the
danceability-prediction chart derivation `create_figure_danceability_energy`
(with the sklearn `LinearRegression` fit modelled by its defining
least-squares property), and the `submit_mood` row-labelling pipeline.

Numeric feature values are modelled as rationals (`ℚ`); Python-float NaN
semantics, where every ordered comparison involving NaN is false, are
modelled separately by the type `PyFloat` and the comparison `pyLt`.
-/

namespace SongVis

/-- A row of the `songs` table, restricted to the columns the core logic
reads (`src/app.py` reads rows as named columns of a DataFrame). -/
structure SongRow where
  track_name : String
  artists : String
  track_genre : String
  popularity : ℚ
  danceability : ℚ
  energy : ℚ
  valence : ℚ
  tempo : ℚ
  acousticness : ℚ
  liveness : ℚ
deriving DecidableEq, Repr

/-- Model of `dance_energy_category` from `src/app.py` lines 19-33:
`if value < 0.4: "Low" elif value < 0.7: "Medium" else: "High"`. -/
def dance_energy_category (value : ℚ) : String :=
  if value < 0.4 then "Low"
  else if value < 0.7 then "Medium"
  else "High"

/-- Model of `map_mood` from `src/app.py` lines 36-55: the ordered if/elif chain over
the row's valence, energy, tempo and danceability. -/
def map_mood (row : SongRow) : String :=
  if row.valence > 0.7 ∧ row.energy > 0.7 then "Happy"
  else if row.tempo < 90 ∧ row.energy < 0.5 then "Relaxing"
  else if row.tempo > 120 ∧ row.energy > 0.7 then "Workout"
  else if row.danceability > 0.7 ∧ row.energy > 0.7 then "Party"
  else "Other"

/-! ### Python float model with NaN

`src/app.py` compares pandas float values with `<` and `>`. For non-NaN
values these behave as ordered-field comparisons (modelled by `ℚ` above);
every comparison involving NaN is false. `PyFloat` makes the NaN case
explicit. -/

/-- A Python float value: either NaN or an ordinary (rational-modelled)
value. -/
inductive PyFloat where
  | nan : PyFloat
  | val : ℚ → PyFloat
deriving DecidableEq, Repr

/-- Python `<` on floats: false whenever either operand is NaN. -/
def pyLt : PyFloat → PyFloat → Bool
  | PyFloat.val x, PyFloat.val y => decide (x < y)
  | _, _ => false

/-- Python `>` on floats: `a > b` is `b < a`; false whenever either operand
is NaN. -/
def pyGt (a b : PyFloat) : Bool := pyLt b a

/-- Model of `dance_energy_category` evaluated with Python float comparison
semantics (same if/elif chain as `src/app.py` lines 28-33, with `<`
interpreted by `pyLt` so NaN comparisons are false). -/
def dance_energy_categoryF (value : PyFloat) : String :=
  if pyLt value (PyFloat.val 0.4) then "Low"
  else if pyLt value (PyFloat.val 0.7) then "Medium"
  else "High"

/-- Model of `map_mood` evaluated with Python float comparison semantics (same
if/elif chain as `src/app.py` lines 46-55, with `<`/`>` interpreted by
`pyLt`/`pyGt` so NaN comparisons are false). -/
def map_moodF (valence energy tempo danceability : PyFloat) : String :=
  if pyGt valence (PyFloat.val 0.7) && pyGt energy (PyFloat.val 0.7) then "Happy"
  else if pyLt tempo (PyFloat.val 90) && pyLt energy (PyFloat.val 0.5) then "Relaxing"
  else if pyGt tempo (PyFloat.val 120) && pyGt energy (PyFloat.val 0.7) then "Workout"
  else if pyGt danceability (PyFloat.val 0.7) && pyGt energy (PyFloat.val 0.7) then "Party"
  else "Other"

/-! ### Repository query -/

/-- Python truthiness of the `genre` argument of `db_create_dataframe`
(`if genre:` in `src/app.py` line 254): `None` and the empty string are
falsy, every other string is truthy. -/
def genreTruthy : Option String → Bool
  | none => false
  | some s => !s.isEmpty

/-- Model of `db_create_dataframe` from `src/app.py` lines 243-268: `SELECT * FROM
songs`, with `WHERE track_genre = ?` appended only when `genre` is truthy.
The SQLite `=` on TEXT columns is exact, case-sensitive comparison;
`storage` is the table's rows in storage order. -/
def db_create_dataframe (storage : List SongRow) (genre : Option String) :
    List SongRow :=
  if genreTruthy genre then
    storage.filter (fun r => r.track_genre == genre.getD "")
  else storage

/-! ### Genre-popularity bar chart

`create_figure_genre_popularity` (`src/app.py` lines 134-161):
`df.groupby("track_genre")["popularity"].mean()` groups the rows by genre
with the group keys sorted ascending (the pandas `groupby` default
`sort=True`), then `.sort_values(ascending=False)` sorts by mean popularity
descending — pandas (since 1.2, GH 35922) implements a descending
`sort_values` inside `nargsort` by reversing the series, taking an
ascending argsort, and reversing the resulting indexer, so with a stable
underlying sort (numpy's default sort is insertion sort, hence stable, for
small arrays) the two reversals cancel on ties and the descending sort
keeps tied entries in their original order; modelled here by
`List.reverse`, the stable `List.insertionSort`, and `List.reverse` again
— and `.head(10)` keeps the first 10 entries. Each bar is a
(genre, mean-popularity) pair. -/

/-- The distinct `track_genre` values of the rows, sorted ascending: the
index of the pandas `groupby("track_genre")` result (default `sort=True`). -/
def distinctGenresSorted (rows : List SongRow) : List String :=
  List.insertionSort (· ≤ ·) (rows.map SongRow.track_genre).dedup

/-- Arithmetic mean of `popularity` over the rows of one genre. -/
def meanPopularity (rows : List SongRow) (g : String) : ℚ :=
  let xs := (rows.filter (fun r => r.track_genre == g)).map SongRow.popularity
  xs.sum / xs.length

/-- Model of `df.groupby("track_genre")["popularity"].mean()`: one (genre, mean)
pair per distinct genre, keyed in ascending genre order. -/
def groupbyMeanPop (rows : List SongRow) : List (String × ℚ) :=
  (distinctGenresSorted rows).map (fun g => (g, meanPopularity rows g))

/-- Model of `.sort_values(ascending=False)` on a (genre, mean) series:
the pandas `nargsort` implementation of a descending sort reverses the
series, takes a stable ascending argsort, and reverses the resulting
indexer, which together form a stable descending sort (tied entries keep
their original relative order). -/
def sort_values_desc (l : List (String × ℚ)) : List (String × ℚ) :=
  (List.insertionSort (fun a b => a.2 ≤ b.2) l.reverse).reverse

/-- The bar series of `create_figure_genre_popularity` (`src/app.py` lines
142-153): group by genre, mean popularity, sort descending, `head(10)`;
bar label = genre, bar height = mean popularity. -/
def create_figure_genre_popularity (storage : List SongRow) :
    List (String × ℚ) :=
  let df := db_create_dataframe storage none
  (sort_values_desc (groupbyMeanPop df)).take 10

/-- The coefficients of the fitted linear model: one weight per input
column `[energy, acousticness, liveness]` plus the intercept
(sklearn `LinearRegression` fits an intercept by default). -/
structure Coeffs where
  wEnergy : ℚ
  wAcousticness : ℚ
  wLiveness : ℚ
  intercept : ℚ
deriving DecidableEq, Repr

/-- Model of `model.predict` on one row: the fitted linear function of the row's
energy, acousticness and liveness. -/
def predict (w : Coeffs) (r : SongRow) : ℚ :=
  w.wEnergy * r.energy + w.wAcousticness * r.acousticness +
    w.wLiveness * r.liveness + w.intercept

/-- Residual sum of squares of coefficients `w` on `rows`, with target
`danceability`: the quantity `LinearRegression.fit` minimizes. -/
def ssr (rows : List SongRow) (w : Coeffs) : ℚ :=
  (rows.map (fun r => (r.danceability - predict w r) ^ 2)).sum

/-- Model of `model = LinearRegression(); model.fit(X, y)` (`src/app.py` lines
179-180), modelled by its defining property: sklearn's ordinary least
squares chooses coefficients minimizing the residual sum of squares over
the training rows. (The numerical solver itself lives outside this
repository; any output it produces satisfies this property in exact
arithmetic.) -/
def IsOLSFit (rows : List SongRow) (w : Coeffs) : Prop :=
  ∀ w' : Coeffs, ssr rows w ≤ ssr rows w'

/-- The fixed category-to-color mapping of `src/app.py` line 188. -/
def colors : List (String × String) :=
  [("Low", "red"), ("Medium", "orange"), ("High", "green")]

/-- The data series underlying the two stacked scatter plots: for each
category/color, the (energy, danceability) points of the rows whose
categorized energy matches (top plot), and the (energy, predicted
danceability) points of the same rows (bottom plot). -/
structure DanceChart where
  titleTop : String
  titleBottom : String
  actualSeries : List (String × String × List (ℚ × ℚ))
  predictedSeries : List (String × String × List (ℚ × ℚ))
deriving DecidableEq, Repr

/-- The chart data built by `create_figure_danceability_energy`
(`src/app.py` lines 183-226) from the genre's rows and the fitted
coefficients `w`: per-row predictions, per-row energy categories, and one
scatter series per category/color in each of the two subplots. -/
def danceChart (genre : String) (rows : List SongRow) (w : Coeffs) :
    DanceChart where
  titleTop := "Actual Danceability vs Energy (" ++ genre ++ ")"
  titleBottom := "Predicted Danceability vs Energy (" ++ genre ++ ")"
  actualSeries := colors.map (fun c =>
    (c.1, c.2,
      (rows.filter (fun r => dance_energy_category r.energy == c.1)).map
        (fun r => (r.energy, r.danceability))))
  predictedSeries := colors.map (fun c =>
    (c.1, c.2,
      (rows.filter (fun r => dance_energy_category r.energy == c.1)).map
        (fun r => (r.energy, predict w r))))

/-- Model of `create_figure_danceability_energy` (`src/app.py` lines 164-226):
loads the genre's rows and fits the regression. When the loaded frame has
no rows, sklearn's input validation makes `model.fit` raise a
`ValueError` ("Found array with 0 sample(s)"), modelled as `Except.error`;
otherwise the chart is built from the rows and the fitted coefficients
`w` (a least-squares minimizer, see `IsOLSFit`). -/
def create_figure_danceability_energy (storage : List SongRow)
    (genre : String) (w : Coeffs) : Except String DanceChart :=
  let df := db_create_dataframe storage (some genre)
  if df.isEmpty then
    Except.error "ValueError: found array with 0 samples"
  else
    Except.ok (danceChart genre df w)

/-! ### The `submit_mood` table pipeline -/

/-- One row of the table rendered by `submit_mood`: the selected columns
`track_name, artists, danceability, energy`, the last two holding the
Low/Medium/High labels after the in-place categorization. -/
structure MoodTableRow where
  track_name : String
  artists : String
  danceability : String
  energy : String
deriving DecidableEq, Repr

/-- The filtered table of `submit_mood` (`src/app.py` lines 104-112): load
the genre's rows; compute each row's mood from the raw numeric features
(`df.apply(map_mood, axis=1)` runs before the columns are overwritten);
overwrite `danceability` and `energy` in place with their categories; keep
the rows whose mood equals the selected mood; select the four displayed
columns. -/
def submit_mood_table (storage : List SongRow) (genre mood : String) :
    List MoodTableRow :=
  let df := db_create_dataframe storage (some genre)
  let labelled := df.map (fun r =>
    (map_mood r,
      MoodTableRow.mk r.track_name r.artists
        (dance_energy_category r.danceability)
        (dance_energy_category r.energy)))
  (labelled.filter (fun p => p.1 == mood)).map Prod.snd

/-! ### Auxiliary definitions used by the statements -/

/-- Componentwise midpoint of two coefficient vectors (used to compare two
least-squares minimizers). -/
def midC (w v : Coeffs) : Coeffs :=
  ⟨(w.wEnergy + v.wEnergy) / 2, (w.wAcousticness + v.wAcousticness) / 2,
    (w.wLiveness + v.wLiveness) / 2, (w.intercept + v.intercept) / 2⟩

/-- Concrete row with genre "rock": energy 1, acousticness 0, liveness 0,
danceability 1/2 (an exact linear image of its features). -/
def rowRock : SongRow := ⟨"Song", "Artist", "rock", 10, 1/2, 1, 1/2, 100, 0, 0⟩

/-- Coefficients predicting via the energy column only. -/
def wHalf : Coeffs := ⟨1/2, 3/10, 1/10, 0⟩

/-- Coefficients predicting via the intercept only. -/
def wConst : Coeffs := ⟨0, 0, 0, 1/2⟩

/-! ### Helper lemmas -/

/-- On non-NaN values the Python-float categorizer agrees with the
rational one. -/
theorem dance_energy_categoryF_val (q : ℚ) :
    dance_energy_categoryF (PyFloat.val q) = dance_energy_category q := by
  simp [dance_energy_categoryF, dance_energy_category, pyLt]

/-- A nonempty genre string is truthy. -/
theorem genreTruthy_some {g : String} (hg : g ≠ "") :
    genreTruthy (some g) = true := by
  simp only [genreTruthy, Bool.not_eq_true']
  rw [Bool.eq_false_iff]
  intro h
  exact hg ((String.isEmpty_iff g).mp h)

/-- For a truthy genre the query filters by exact genre equality. -/
theorem db_some_eq_filter (storage : List SongRow) {g : String}
    (hg : g ≠ "") :
    db_create_dataframe storage (some g)
      = storage.filter (fun r => r.track_genre == g) := by
  simp [db_create_dataframe, genreTruthy_some hg]

/-- Membership in the genre query result, for a nonempty genre string. -/
theorem mem_db_some {storage : List SongRow} {r : SongRow} {g : String}
    (hg : g ≠ "") :
    r ∈ db_create_dataframe storage (some g) ↔
      r ∈ storage ∧ r.track_genre = g := by
  rw [db_some_eq_filter storage hg]
  simp [List.mem_filter]

/-- Sums of squares are nonnegative. -/
theorem sq_list_sum_nonneg {α : Type} (l : List α) (f : α → ℚ) :
    0 ≤ (l.map (fun r => f r ^ 2)).sum := by
  apply List.sum_nonneg
  intro x hx
  obtain ⟨r, _, rfl⟩ := List.mem_map.mp hx
  positivity

/-- A nonpositive sum of squares forces every summand's base to vanish. -/
theorem sq_list_sum_eq_zero {α : Type} {l : List α} {f : α → ℚ}
    (h : (l.map (fun r => f r ^ 2)).sum ≤ 0) :
    ∀ r ∈ l, f r = 0 := by
  induction l with
  | nil => simp
  | cons a t ih =>
    simp only [List.map_cons, List.sum_cons] at h
    have h1 : 0 ≤ (t.map (fun r => f r ^ 2)).sum := sq_list_sum_nonneg t f
    have h2 : (0 : ℚ) ≤ f a ^ 2 := sq_nonneg _
    intro r hr
    rcases List.mem_cons.mp hr with rfl | hr'
    · have : f r ^ 2 = 0 := le_antisymm (by linarith) h2
      exact pow_eq_zero_iff (two_ne_zero) |>.mp this
    · exact ih (by linarith) r hr'

/-- The residual sum of squares is nonnegative. -/
theorem ssr_nonneg (rows : List SongRow) (w : Coeffs) : 0 ≤ ssr rows w :=
  sq_list_sum_nonneg rows (fun r => r.danceability - predict w r)

/-- Prediction is affine in the coefficients: the midpoint of two
coefficient vectors predicts the midpoint of their predictions. -/
theorem predict_midC (w v : Coeffs) (r : SongRow) :
    predict (midC w v) r = (predict w r + predict v r) / 2 := by
  simp only [predict, midC]
  ring

/-- Parallelogram-style expansion of the residual sum of squares at the
midpoint of two coefficient vectors. -/
theorem ssr_midC (rows : List SongRow) (w v : Coeffs) :
    ssr rows (midC w v) = ssr rows w / 2 + ssr rows v / 2
      - (rows.map (fun r => (predict w r - predict v r) ^ 2)).sum / 4 := by
  induction rows with
  | nil => simp [ssr]
  | cons a t ih =>
    simp only [ssr, List.map_cons, List.sum_cons] at ih ⊢
    rw [predict_midC]
    linear_combination ih

/-- Two least-squares minimizers produce identical predictions on every
training row (the fitted values are the unique projection). -/
theorem ols_fits_same_predictions (rows : List SongRow) (w v : Coeffs)
    (h : IsOLSFit rows w) (h' : IsOLSFit rows v) :
    ∀ r ∈ rows, predict w r = predict v r := by
  have heq : ssr rows w = ssr rows v := le_antisymm (h v) (h' w)
  have hm := h (midC w v)
  rw [ssr_midC, ← heq] at hm
  have hD : (rows.map (fun r => (predict w r - predict v r) ^ 2)).sum ≤ 0 := by
    linarith
  intro r hr
  have h0 := sq_list_sum_eq_zero hD r hr
  exact sub_eq_zero.mp h0

/-- C1: `map_mood` evaluates the ordered decision list with the first
matching rule winning — (1) valence > 0.7 and energy > 0.7 gives Happy,
(2) tempo < 90 and energy < 0.5 gives Relaxing, (3) tempo > 120 and
energy > 0.7 gives Workout, (4) danceability > 0.7 and energy > 0.7 gives
Party, (5) otherwise Other — with all comparisons strict; in particular a
record satisfying both rule 1 and rule 3 yields Happy. -/
theorem map_mood_decision_list (r : SongRow) :
    (r.valence > 0.7 ∧ r.energy > 0.7 → map_mood r = "Happy")
  ∧ (¬(r.valence > 0.7 ∧ r.energy > 0.7) →
      (r.tempo < 90 ∧ r.energy < 0.5) → map_mood r = "Relaxing")
  ∧ (¬(r.valence > 0.7 ∧ r.energy > 0.7) →
      ¬(r.tempo < 90 ∧ r.energy < 0.5) →
      (r.tempo > 120 ∧ r.energy > 0.7) → map_mood r = "Workout")
  ∧ (¬(r.valence > 0.7 ∧ r.energy > 0.7) →
      ¬(r.tempo < 90 ∧ r.energy < 0.5) →
      ¬(r.tempo > 120 ∧ r.energy > 0.7) →
      (r.danceability > 0.7 ∧ r.energy > 0.7) → map_mood r = "Party")
  ∧ (¬(r.valence > 0.7 ∧ r.energy > 0.7) →
      ¬(r.tempo < 90 ∧ r.energy < 0.5) →
      ¬(r.tempo > 120 ∧ r.energy > 0.7) →
      ¬(r.danceability > 0.7 ∧ r.energy > 0.7) → map_mood r = "Other")
  ∧ ((r.valence > 0.7 ∧ r.energy > 0.7) ∧ (r.tempo > 120 ∧ r.energy > 0.7) →
      map_mood r = "Happy") := by
  unfold map_mood
  refine ⟨fun h1 => ?_, fun h1 h2 => ?_, fun h1 h2 h3 => ?_,
    fun h1 h2 h3 h4 => ?_, fun h1 h2 h3 h4 => ?_, fun h => ?_⟩
  · rw [if_pos h1]
  · rw [if_neg h1, if_pos h2]
  · rw [if_neg h1, if_neg h2, if_pos h3]
  · rw [if_neg h1, if_neg h2, if_neg h3, if_pos h4]
  · rw [if_neg h1, if_neg h2, if_neg h3, if_neg h4]
  · rw [if_pos h.1]

/-- Witness for C1: a record satisfying both rule 1 (valence 0.8,
energy 0.8) and rule 3 (tempo 130, energy 0.8) is classified Happy. -/
theorem map_mood_decision_list_witness :
    map_mood ⟨"t", "a", "g", 0, 0.8, 0.8, 0.8, 130, 0, 0⟩ = "Happy" :=
  (map_mood_decision_list ⟨"t", "a", "g", 0, 0.8, 0.8, 0.8, 130, 0, 0⟩).2.2.2.2.2
    ⟨⟨by norm_num, by norm_num⟩, ⟨by norm_num, by norm_num⟩⟩

/-- C2: `dance_energy_category` maps v < 0.4 to Low, 0.4 ≤ v < 0.7 to
Medium and 0.7 ≤ v to High, with exact boundaries categorize(0.4) = Medium
and categorize(0.7) = High, and accepts every rational input (including
outside [0, 1]) under the same thresholds. -/
theorem dance_energy_category_spec (v : ℚ) :
    (v < 0.4 → dance_energy_category v = "Low")
  ∧ (0.4 ≤ v → v < 0.7 → dance_energy_category v = "Medium")
  ∧ (0.7 ≤ v → dance_energy_category v = "High")
  ∧ dance_energy_category 0.4 = "Medium"
  ∧ dance_energy_category 0.7 = "High" := by
  unfold dance_energy_category
  refine ⟨fun h => ?_, fun h1 h2 => ?_, fun h => ?_, ?_, ?_⟩
  · rw [if_pos h]
  · rw [if_neg (by linarith), if_pos h2]
  · rw [if_neg (by linarith), if_neg (by linarith)]
  · norm_num
  · norm_num

/-- Witness for C2: inputs outside [0, 1] are categorized by the same
thresholds — -1 is Low and 2 is High — and 0.5 is Medium. -/
theorem dance_energy_category_spec_witness :
    dance_energy_category (-1) = "Low"
  ∧ dance_energy_category 0.5 = "Medium"
  ∧ dance_energy_category 2 = "High" :=
  ⟨(dance_energy_category_spec (-1)).1 (by norm_num),
    (dance_energy_category_spec 0.5).2.1 (by norm_num) (by norm_num),
    (dance_energy_category_spec 2).2.2.1 (by norm_num)⟩

/-- C10: under Python float comparison semantics every ordered comparison
involving NaN is false, so `dance_energy_category` sends NaN to High (both
strict less-than tests fail, control reaches the final branch) and
`map_mood` sends an all-NaN feature record to Other (no rule's conjunction
holds); both functions are total, returning a label from their fixed label
sets. -/
theorem nan_inputs_classified :
    dance_energy_categoryF PyFloat.nan = "High"
  ∧ map_moodF PyFloat.nan PyFloat.nan PyFloat.nan PyFloat.nan = "Other" :=
  ⟨rfl, rfl⟩

/-- C7: on an empty song collection the genre-popularity pipeline returns
a chart with zero bars (an empty bar series), a normal successful
outcome. -/
theorem genre_popularity_empty_input :
    create_figure_genre_popularity [] = [] := rfl

/-- Counterexample to C4 as stated: querying with the empty genre string
does not return an empty collection — `if genre:` is falsy for "", so the
WHERE clause is skipped and every record is returned. -/
theorem songs_in_genre_empty_string_counterexample :
    db_create_dataframe [rowRock] (some "") = [rowRock]
  ∧ db_create_dataframe [rowRock] (some "") ≠ [] := by
  constructor
  · rfl
  · intro h
    exact List.cons_ne_nil rowRock [] h

/-- C4 (amended): for a nonempty genre string the query returns exactly
the records whose `track_genre` equals it, by case-sensitive exact match,
and a non-matching genre yields an empty collection rather than an error;
for the empty genre string the filter is skipped and all records are
returned. -/
theorem songs_in_genre_filter (storage : List SongRow) (g : String) :
    (g ≠ "" → ∀ r : SongRow,
      r ∈ db_create_dataframe storage (some g) ↔
        r ∈ storage ∧ r.track_genre = g)
  ∧ db_create_dataframe storage (some "") = storage := by
  constructor
  · intro hg r
    exact mem_db_some hg
  · have h : genreTruthy (some "") = false := rfl
    simp [db_create_dataframe, h]

/-- Witness for C4 (amended): the match is case-sensitive — a record with
genre "rock" is not returned for the query "Rock". -/
theorem songs_in_genre_filter_witness :
    rowRock ∉ db_create_dataframe [rowRock] (some "Rock") :=
  fun h =>
    absurd
      (((songs_in_genre_filter [rowRock] "Rock").1 (by decide) rowRock).mp h).2
      (by decide)

/-- C9: every row of the table returned by the mood pipeline originates
from a stored record of the selected genre: its mood was computed by
`map_mood` from the record's raw numeric features (before the in-place
overwrite), its displayed danceability and energy are the categorized
labels of that same record's raw values, and the row passed the mood
filter. -/
theorem submit_mood_alignment (storage : List SongRow) (genre mood : String)
    (hg : genre ≠ "") :
    ∀ t ∈ submit_mood_table storage genre mood,
      ∃ r ∈ storage, r.track_genre = genre ∧ map_mood r = mood ∧
        t = ⟨r.track_name, r.artists,
          dance_energy_category r.danceability,
          dance_energy_category r.energy⟩ := by
  intro t ht
  unfold submit_mood_table at ht
  simp only [List.mem_map, List.mem_filter] at ht
  obtain ⟨⟨m, row⟩, ⟨hmem, hmood⟩, hrow⟩ := ht
  obtain ⟨r, hr, hpair⟩ := hmem
  obtain ⟨hr1, hr2⟩ := (mem_db_some hg).mp hr
  rw [Prod.mk.injEq] at hpair
  obtain ⟨hm, hrw⟩ := hpair
  refine ⟨r, hr1, hr2, ?_, ?_⟩
  · have hmm : m = mood := by simpa using hmood
    rw [hm]
    exact hmm
  · dsimp only at hrow
    rw [← hrow, ← hrw]

/-- Witness for C9: with one stored rock record (danceability 1/2,
energy 1, mood Other), the returned table row shows the Medium/High
categories of the raw values and originates from that record. -/
theorem submit_mood_alignment_witness :
    ∃ r ∈ [rowRock], r.track_genre = "rock" ∧ map_mood r = "Other" ∧
      (⟨"Song", "Artist", "Medium", "High"⟩ : MoodTableRow)
        = ⟨r.track_name, r.artists,
            dance_energy_category r.danceability,
            dance_energy_category r.energy⟩ :=
  submit_mood_alignment [rowRock] "rock" "Other" (by decide)
    ⟨"Song", "Artist", "Medium", "High"⟩
    (by
      unfold submit_mood_table db_create_dataframe
      simp [genreTruthy, rowRock, map_mood, dance_energy_category]
      norm_num)

/-- Counterexample to C5 as stated: on an empty input collection (0 rows,
which the claim includes) the danceability chart builder does not return a
chart value — `model.fit` raises sklearn's ValueError for an array with 0
samples, so the operation fails. -/
theorem danceability_chart_empty_counterexample :
    create_figure_danceability_energy [] "rock" wConst
      = Except.error "ValueError: found array with 0 samples" := rfl

/-- C5 (amended): for a nonempty input collection — in particular the 1-,
2- and 3-row collections below the 4-row determinate-fit threshold — the
danceability chart builder completes and returns a chart value even though
the regression is underdetermined; on an empty collection the regression
fit raises a ValueError. -/
theorem danceability_chart_small_input (storage : List SongRow)
    (genre : String) (w : Coeffs) :
    (db_create_dataframe storage (some genre) = [] →
      create_figure_danceability_energy storage genre w
        = Except.error "ValueError: found array with 0 samples")
  ∧ (db_create_dataframe storage (some genre) ≠ [] →
      create_figure_danceability_energy storage genre w
        = Except.ok (danceChart genre (db_create_dataframe storage (some genre)) w)) := by
  unfold create_figure_danceability_energy
  constructor
  · intro h
    rw [if_pos (List.isEmpty_iff.mpr h)]
  · intro h
    rw [if_neg (fun he => h (List.isEmpty_iff.mp he))]

/-- Witness for C5 (amended): a single-row (underdetermined) collection
still yields a chart value. -/
theorem danceability_chart_small_input_witness :
    create_figure_danceability_energy [rowRock] "rock" wConst
      = Except.ok (danceChart "rock" (db_create_dataframe [rowRock] (some "rock")) wConst) :=
  (danceability_chart_small_input [rowRock] "rock" wConst).2 (by decide)

/-- C6: when danceability is an exact noise-free linear (affine) function
of energy, acousticness and liveness across the input collection, every
least-squares fit reproduces each row's danceability exactly: the
predicted values equal the actual values. -/
theorem ols_exact_fit_recovery (rows : List SongRow) (a b c d : ℚ)
    (w : Coeffs)
    (hlin : ∀ r ∈ rows,
      r.danceability = a * r.energy + b * r.acousticness + c * r.liveness + d)
    (hfit : IsOLSFit rows w) :
    ∀ r ∈ rows, predict w r = r.danceability := by
  have hzero : ssr rows ⟨a, b, c, d⟩ = 0 := by
    unfold ssr
    apply List.sum_eq_zero
    intro x hx
    obtain ⟨r, hr, rfl⟩ := List.mem_map.mp hx
    rw [hlin r hr]
    simp [predict]
  have hle : ssr rows w ≤ 0 := hzero ▸ hfit ⟨a, b, c, d⟩
  intro r hr
  have h0 := sq_list_sum_eq_zero hle r hr
  exact (sub_eq_zero.mp h0).symm

/-- Witness for C6: a one-row collection with danceability = 0.5·energy +
0.3·acousticness + 0.1·liveness is predicted exactly by the fit with those
coefficients. -/
theorem ols_exact_fit_recovery_witness :
    predict wHalf rowRock = rowRock.danceability :=
  ols_exact_fit_recovery [rowRock] (1/2) (3/10) (1/10) 0 wHalf
    (by
      intro r hr
      simp only [List.mem_singleton] at hr
      subst hr
      norm_num [rowRock])
    (by
      intro v
      have h : ssr [rowRock] wHalf = 0 := by
        norm_num [ssr, predict, wHalf, rowRock]
      rw [h]
      exact ssr_nonneg [rowRock] v)
    rowRock (List.mem_singleton_self rowRock)

/-- C8: both chart builders are deterministic functions of their input:
two runs of the genre-popularity builder agree trivially, and two runs of
the danceability builder agree even though the least-squares minimizer
need not be unique — any two minimizers produce the same fitted values,
hence identical underlying data series. -/
theorem chart_builders_deterministic (storage : List SongRow)
    (genre : String) (w v : Coeffs)
    (h : IsOLSFit (db_create_dataframe storage (some genre)) w)
    (h' : IsOLSFit (db_create_dataframe storage (some genre)) v) :
    create_figure_danceability_energy storage genre w
      = create_figure_danceability_energy storage genre v
  ∧ create_figure_genre_popularity storage
      = create_figure_genre_popularity storage := by
  refine ⟨?_, rfl⟩
  have hp := ols_fits_same_predictions _ w v h h'
  unfold create_figure_danceability_energy
  by_cases he : (db_create_dataframe storage (some genre)).isEmpty
  · rw [if_pos he, if_pos he]
  · rw [if_neg he, if_neg he]
    unfold danceChart
    congr 1
    simp only [DanceChart.mk.injEq, true_and]
    apply List.map_congr_left
    intro p _
    congr 1
    congr 1
    apply List.map_congr_left
    intro r hr
    rw [hp r (List.mem_of_mem_filter hr)]

/-- Witness for C8: two distinct exact fits of a one-row collection (via
the energy coefficient and via the intercept) yield identical charts. -/
theorem chart_builders_deterministic_witness :
    create_figure_danceability_energy [rowRock] "rock" wHalf
      = create_figure_danceability_energy [rowRock] "rock" wConst :=
  (chart_builders_deterministic [rowRock] "rock" wHalf wConst
    (by
      intro v
      have h : ssr (db_create_dataframe [rowRock] (some "rock")) wHalf = 0 := by
        norm_num [db_create_dataframe, genreTruthy, ssr, predict, wHalf, rowRock]
      rw [h]
      exact ssr_nonneg _ v)
    (by
      intro v
      have h : ssr (db_create_dataframe [rowRock] (some "rock")) wConst = 0 := by
        norm_num [db_create_dataframe, genreTruthy, ssr, predict, wConst, rowRock]
      rw [h]
      exact ssr_nonneg _ v)).1

end SongVis
